import Mathlib

/-!
# Verification of the Jobly query-construction core

A shallow embedding of the Jobly repository's query-construction layer
(`helpers/sql.js`, `models/company.js`, `models/job.js`), the filter
validation in the route handlers (`routes/jobs.js`, `routes/companies.js`),
and the authorization gate, together with theorems settling the spec's
claims about them.

JavaScript objects whose keys are the non-numeric strings used here iterate
in insertion order, so a raw filter / update object is embedded as an
ordered association list `List (String × JSVal)`.  JavaScript numbers are
modelled as `Int` (every numeric literal the repository binds or coerces in
the claims under study is an integer).
-/

/-- A JavaScript value as it appears in a bound-parameter list: a string, a
number, `null`, or `NaN` (the result of coercing a non-numeric string). -/
inductive JSVal where
  | str (s : String)
  | num (n : Int)
  | null
  | nan
deriving DecidableEq, Repr

/-- The error classes thrown by the repository (`expressError.js`):
`BadRequestError`, `NotFoundError`, `ExpressError(msg, status)`, and the
middleware's `UnauthorizedError` / `ForbiddenError` kinds. -/
inductive JoblyError where
  | badRequest (msg : String)
  | notFound (msg : String)
  | express (msg : String) (status : Nat)
  | unauthorized
  | forbidden
deriving DecidableEq, Repr

deriving instance DecidableEq for Except

/-- A single-quote character as a string (used inside error messages). -/
def quo : String := String.singleton (Char.ofNat 39)

/-- Fuel-driven decimal printing of a natural number, little helper behind
`decStr`.  With fuel `> n` it produces the usual decimal digit string. -/
def decCharsAux : Nat → Nat → List Char
  | 0, _ => []
  | fuel + 1, n =>
    if n < 10 then [Nat.digitChar n]
    else decCharsAux fuel (n / 10) ++ [Nat.digitChar (n % 10)]

/-- The decimal digit characters of `n` (most significant first). -/
def decChars (n : Nat) : List Char := decCharsAux (n + 1) n

/-- Decimal rendering of a natural number, the embedding of JavaScript's
number-to-string conversion inside a template literal such as `$${idx}`. -/
def decStr (n : Nat) : String := String.mk (decChars n)

/-- Decimal rendering of an integer (adds a leading minus sign). -/
def intStr (i : Int) : String :=
  if i < 0 then "-" ++ decStr i.natAbs else decStr i.natAbs

/-- JavaScript string conversion of a `JSVal`, as a template literal does. -/
def jsValToString : JSVal → String
  | JSVal.str s => s
  | JSVal.num n => intStr n
  | JSVal.null => "null"
  | JSVal.nan => "NaN"

/-- Digit-accumulator used for modelling JavaScript numeric coercion of an
integer-literal string; `none` on any non-digit character. -/
def parseDigitsAcc : List Char → Nat → Option Nat
  | [], acc => some acc
  | c :: cs, acc =>
    if c.isDigit then parseDigitsAcc cs (10 * acc + (c.toNat - 48)) else none

/-- JavaScript unary plus (`+value`), the coercion `Company.findAll` applies
to `minEmployees` / `maxEmployees`.  Modelled on the value shapes the
repository actually binds: numbers pass through, `null` becomes `0`, the
empty string becomes `0`, an (optionally negated) integer-literal string
parses to its value, and any other string becomes `NaN`. -/
def jsUnaryPlus : JSVal → JSVal
  | JSVal.num n => JSVal.num n
  | JSVal.null => JSVal.num 0
  | JSVal.nan => JSVal.nan
  | JSVal.str s =>
    match s.data with
    | [] => JSVal.num 0
    | c :: cs =>
      if c = '-' then
        match cs with
        | [] => JSVal.nan
        | _ :: _ =>
          match parseDigitsAcc cs 0 with
          | some n => JSVal.num (-(n : Int))
          | none => JSVal.nan
      else
        match parseDigitsAcc (c :: cs) 0 with
        | some n => JSVal.num (n : Int)
        | none => JSVal.nan

/-- `Array.prototype.join(sep)`: elements interleaved with the separator. -/
def joinSep (sep : String) : List String → String
  | [] => ""
  | [x] => x
  | x :: y :: xs => x ++ sep ++ joinSep sep (y :: xs)

/-- `seqFrom s n = [s, s+1, ..., s+n-1]`: the contiguous index sequence a
compiled clause's placeholders must realize. -/
def seqFrom : Nat → Nat → List Nat
  | _, 0 => []
  | s, n + 1 => s :: seqFrom (s + 1) n

/-- Placeholder scanner state machine over the characters of a compiled
clause: outside a placeholder (`none`) it looks for `$`; inside one
(`some acc`) it accumulates decimal digits and emits the completed index at
the first non-digit.  `phScan` lists the placeholder indices of a clause in
left-to-right order. -/
def phScanSt : List Char → Option Nat → List Nat
  | [], none => []
  | [], some n => [n]
  | c :: cs, none =>
    if c = '$' then phScanSt cs (some 0) else phScanSt cs none
  | c :: cs, some n =>
    if c.isDigit then phScanSt cs (some (10 * n + (c.toNat - 48)))
    else if c = '$' then n :: phScanSt cs (some 0)
    else n :: phScanSt cs none

/-- The placeholder indices occurring in a clause, in order of occurrence. -/
def phScan (s : String) : List Nat := phScanSt s.data none

/-- `s` contains no `$` character (true of every SQL identifier the
repository maps to). -/
def noDollar (s : String) : Prop := ∀ c ∈ s.data, c ≠ '$'

instance (s : String) : Decidable (noDollar s) := by
  unfold noDollar; infer_instance

/-- `helpers/sql.js`: `jsToSql[colName] || colName` — look the logical field
name up in the column map; a missing (or falsy, i.e. empty) entry falls back
to the field name itself. -/
def resolveCol (jsToSql : List (String × String)) (colName : String) : String :=
  match List.lookup colName jsToSql with
  | some c => if c = "" then colName else c
  | none => colName

/-- `helpers/sql.js` `sqlForPartialUpdate(dataToUpdate, jsToSql)`: throws
`BadRequestError("No data")` on an empty update object, otherwise maps the
i-th supplied field to the fragment `"col"=$(i+1)` and returns the fragments
joined by `", "` together with `Object.values(dataToUpdate)`. -/
def sqlForPartialUpdate (dataToUpdate : List (String × JSVal))
    (jsToSql : List (String × String)) : Except JoblyError (String × List JSVal) :=
  let keys := dataToUpdate.map Prod.fst
  if keys = [] then Except.error (JoblyError.badRequest "No data")
  else
    let cols := keys.enum.map
      (fun p => "\"" ++ resolveCol jsToSql p.2 ++ "\"=$" ++ decStr (p.1 + 1))
    Except.ok (joinSep ", " cols, dataToUpdate.map Prod.snd)

/-- One iteration of the `for (const [key, value] of Object.entries(filterBy))`
loop in `Job.findAll` (models/job.js): `titleLike` and `minSalary` push a
fragment numbered `$(filters.length + 1)` and a value (`%value%` for
`titleLike`, the raw value for `minSalary`); `hasEquity` pushes the fixed
fragment `equity > 0` and no value; unrecognized keys are skipped. -/
def jobFilterStep (acc : List String × List JSVal) (kv : String × JSVal) :
    List String × List JSVal :=
  match kv.1 with
  | "titleLike" =>
    (acc.1 ++ ["title ILIKE $" ++ decStr (acc.1.length + 1)],
     acc.2 ++ [JSVal.str ("%" ++ jsValToString kv.2 ++ "%")])
  | "minSalary" =>
    (acc.1 ++ ["salary >= $" ++ decStr (acc.1.length + 1)], acc.2 ++ [kv.2])
  | "hasEquity" => (acc.1 ++ ["equity > 0"], acc.2)
  | _ => acc

/-- The `filters` / `values` accumulation loop of `Job.findAll`. -/
def jobBuildFilters (filterBy : List (String × JSVal)) : List String × List JSVal :=
  filterBy.foldl jobFilterStep ([], [])

/-- The complete `WHERE` construction of `Job.findAll`: empty filter object
means no clause; otherwise `"WHERE " + filters.join(" AND ")`. -/
def jobBuildWhere (filterBy : List (String × JSVal)) : String × List JSVal :=
  if filterBy.length > 0 then
    let fv := jobBuildFilters filterBy
    ("WHERE " ++ joinSep " AND " fv.1, fv.2)
  else ("", [])

/-- `Job.findAll` (models/job.js): builds the `WHERE` clause, issues the
statement against the store (embedded as the function `dbq` from statement
text and bound values to result rows), and throws
`NotFoundError("No jobs match the parameters")` when zero rows come back —
on the unfiltered path as well, since the check sits after the single query. -/
def jobFindAll {α : Type} (dbq : String → List JSVal → List α)
    (filterBy : List (String × JSVal)) : Except JoblyError (List α) :=
  let wv := jobBuildWhere filterBy
  let result := dbq ("SELECT id, title, salary, equity, company_handle FROM jobs "
      ++ wv.1 ++ " ORDER BY company_handle") wv.2
  if result.length = 0 then
    Except.error (JoblyError.notFound "No jobs match the parameters")
  else Except.ok result

/-- One iteration of the `for (let key in filterBy)` loop of
`Company.findAll` (models/company.js): the running index `idx` starts at 1
and the first recognized key prefixes its fragment with `WHERE `;
`minEmployees` / `maxEmployees` values are coerced with unary plus;
unrecognized keys fall through without touching the accumulator. -/
def companyFilterStep (acc : List String × List JSVal × Nat) (kv : String × JSVal) :
    List String × List JSVal × Nat :=
  match acc with
  | (fqs, vals, idx) =>
    if idx = 1 then
      if kv.1 = "nameLike" then
        (fqs ++ ["WHERE name ILIKE $" ++ decStr idx],
         vals ++ [JSVal.str ("%" ++ jsValToString kv.2 ++ "%")], idx + 1)
      else if kv.1 = "minEmployees" then
        (fqs ++ ["WHERE num_employees >= $" ++ decStr idx],
         vals ++ [jsUnaryPlus kv.2], idx + 1)
      else if kv.1 = "maxEmployees" then
        (fqs ++ ["WHERE num_employees <= $" ++ decStr idx],
         vals ++ [jsUnaryPlus kv.2], idx + 1)
      else (fqs, vals, idx)
    else
      if kv.1 = "nameLike" then
        (fqs ++ ["name ILIKE $" ++ decStr idx],
         vals ++ [JSVal.str ("%" ++ jsValToString kv.2 ++ "%")], idx + 1)
      else if kv.1 = "minEmployees" then
        (fqs ++ ["num_employees >= $" ++ decStr idx],
         vals ++ [jsUnaryPlus kv.2], idx + 1)
      else if kv.1 = "maxEmployees" then
        (fqs ++ ["num_employees <= $" ++ decStr idx],
         vals ++ [jsUnaryPlus kv.2], idx + 1)
      else (fqs, vals, idx)

/-- The `filterQueries` / `values` / `idx` accumulation loop of
`Company.findAll`. -/
def companyBuildFilters (filterBy : List (String × JSVal)) :
    List String × List JSVal × Nat :=
  filterBy.foldl companyFilterStep ([], [], 1)

/-- `Company.findAll` (models/company.js): with no argument it queries all
companies and throws `NotFoundError("No companies exist in database")` on an
empty table; with a filter object it joins the accumulated fragments with
`" AND "` and throws `NotFoundError("No companies match the parameters")`
when zero rows match. -/
def companyFindAll {α : Type} (dbq : String → List JSVal → List α)
    (filterBy : Option (List (String × JSVal))) : Except JoblyError (List α) :=
  match filterBy with
  | none =>
    let companiesRes := dbq
      "SELECT handle, name, description, num_employees, logo_url FROM companies ORDER BY name" []
    if companiesRes.length = 0 then
      Except.error (JoblyError.notFound "No companies exist in database")
    else Except.ok companiesRes
  | some fb =>
    let st := companyBuildFilters fb
    let joinedQueries := joinSep " AND " st.1
    let filteredRes := dbq
      ("SELECT handle, name, description, num_employees, logo_url FROM companies "
        ++ joinedQueries ++ " ORDER BY name") st.2.1
    if filteredRes.length = 0 then
      Except.error (JoblyError.notFound "No companies match the parameters")
    else Except.ok filteredRes

/-- The filter parameters the jobs route recognizes (routes/jobs.js). -/
def supportedFilters : List String := ["titleLike", "minSalary", "hasEquity"]

/-- The `for (let key in filterBy)` validation loop of `GET /jobs`
(routes/jobs.js): an unrecognized key throws
`BadRequestError("Cannot filter results by parameter '<key>'")`; a
recognized value-bearing key (`titleLike`, `minSalary`) whose value is the
empty string throws `BadRequestError("Missing value for parameter '<key>'")`;
the first offence in iteration order wins. -/
def checkJobFilters : List (String × JSVal) → Except JoblyError Unit
  | [] => Except.ok ()
  | (k, v) :: rest =>
    if k ∉ supportedFilters then
      Except.error (JoblyError.badRequest
        ("Cannot filter results by parameter " ++ quo ++ k ++ quo))
    else if (k = "titleLike" ∨ k = "minSalary") ∧ v = JSVal.str "" then
      Except.error (JoblyError.badRequest
        ("Missing value for parameter " ++ quo ++ k ++ quo))
    else checkJobFilters rest

/-- The `GET /jobs` handler (routes/jobs.js): an empty query object goes
straight to the unfiltered `Job.findAll()`; otherwise the keys are validated
and only then is `Job.findAll(filterBy)` invoked. -/
def getJobsHandler {α : Type} (dbq : String → List JSVal → List α)
    (query : List (String × JSVal)) : Except JoblyError (List α) :=
  if query.length = 0 then jobFindAll dbq []
  else
    match checkJobFilters query with
    | Except.error e => Except.error e
    | Except.ok _ => jobFindAll dbq query

/-- A row of the `companies` table as `Company.create` inserts it. -/
structure CompanyData where
  handle : String
  name : JSVal
  description : JSVal
  numEmployees : JSVal
  logoUrl : JSVal
deriving DecidableEq, Repr

/-- `Company.create` (models/company.js): first a `SELECT handle FROM
companies WHERE handle = $1` duplicate check — a hit throws
`BadRequestError("Duplicate company: <handle>")` before any `INSERT` is
issued — then the insert, returning the new row and the extended table. -/
def companyCreate (data : CompanyData) (companies : List CompanyData) :
    Except JoblyError (CompanyData × List CompanyData) :=
  match companies.filter (fun c => c.handle = data.handle) with
  | _ :: _ => Except.error (JoblyError.badRequest ("Duplicate company: " ++ data.handle))
  | [] => Except.ok (data, companies ++ [data])

/-- The payload of `Job.create`. -/
structure JobData where
  title : JSVal
  salary : JSVal
  equity : JSVal
  companyHandle : String
deriving DecidableEq, Repr

/-- The relational store as the job routes touch it: the `companies` table
and the `jobs` table (id column fed by a sequence). -/
structure Store where
  companies : List CompanyData
  jobs : List (Nat × JobData)
deriving DecidableEq, Repr

/-- `Job.create` (models/job.js): checks the referenced company handle
exists (`BadRequestError("Company '<handle>' does not exist")` otherwise),
then inserts the job with the next sequence id. -/
def jobCreate (data : JobData) (store : Store) :
    Except JoblyError ((Nat × JobData) × Store) :=
  match store.companies.filter (fun c => c.handle = data.companyHandle) with
  | [] => Except.error (JoblyError.badRequest
      ("Company " ++ quo ++ data.companyHandle ++ quo ++ " does not exist"))
  | _ :: _ =>
    let newJob := (store.jobs.length + 1, data)
    Except.ok (newJob, { companies := store.companies, jobs := store.jobs ++ [newJob] })

/-- The caller identity the transport layer hands the authorization gate:
anonymous, or a credential carrying a username and an `isAdmin` role claim. -/
inductive Caller where
  | anon
  | user (username : String) (isAdmin : Bool)
deriving DecidableEq, Repr

/-- Modelled from the spec: `ensureLoggedIn` of `middleware/auth.js` is not
under src/ (only its callers and the route tests are).  Per the spec's
`requireAuthenticated` predicate and the route tests ("unauth for anon",
expecting status 401), an anonymous caller fails with `UnauthorizedError`. -/
def ensureLoggedIn : Caller → Except JoblyError Unit
  | Caller.anon => Except.error JoblyError.unauthorized
  | Caller.user _ _ => Except.ok ()

/-- Modelled from the spec: `ensureAdmin` of `middleware/auth.js` is not
under src/.  Its observable behavior is fixed by the route tests in
src/unnamed/part_001 ("unauth for non-Admin" on POST/PATCH/DELETE /jobs,
expecting status 401): a caller whose credential does not carry the admin
role claim fails with `UnauthorizedError` — the same 401 kind as an
anonymous caller — not with a distinct 403 `ForbiddenError`. -/
def ensureAdmin : Caller → Except JoblyError Unit
  | Caller.user _ true => Except.ok ()
  | _ => Except.error JoblyError.unauthorized

/-- The `POST /jobs` pipeline (routes/jobs.js line 26):
`ensureLoggedIn`, then `ensureAdmin`, then — only if both gates pass — the
repository call `Job.create(req.body)`. -/
def postJobsPipeline (caller : Caller) (body : JobData) (store : Store) :
    Except JoblyError ((Nat × JobData) × Store) :=
  match ensureLoggedIn caller with
  | Except.error e => Except.error e
  | Except.ok _ =>
    match ensureAdmin caller with
    | Except.error e => Except.error e
    | Except.ok _ => jobCreate body store


/-- Appending strings appends their character lists. -/
theorem str_data_append (s t : String) : (s ++ t).data = s.data ++ t.data := rfl

/-- A decimal digit character is a digit. -/
theorem digitChar_isDigit {d : Nat} (h : d < 10) : (Nat.digitChar d).isDigit = true := by
  interval_cases d <;> decide

/-- Reading a digit character back gives the digit. -/
theorem digitChar_toNatSub {d : Nat} (h : d < 10) : (Nat.digitChar d).toNat - 48 = d := by
  interval_cases d <;> decide

/-- A digit character is not the placeholder marker. -/
theorem digitChar_ne_dollar {d : Nat} (h : d < 10) : Nat.digitChar d ≠ '$' := by
  interval_cases d <;> decide

/-- Decimal printing never emits a placeholder marker. -/
theorem decCharsAux_ne_dollar : ∀ fuel n, ∀ c ∈ decCharsAux fuel n, c ≠ '$' := by
  intro fuel
  induction fuel with
  | zero => intro n c hc; simp [decCharsAux] at hc
  | succ f ih =>
    intro n c hc
    by_cases h : n < 10
    · simp [decCharsAux, h] at hc
      subst hc; exact digitChar_ne_dollar h
    · simp [decCharsAux, h] at hc
      rcases hc with hc | hc
      · exact ih (n / 10) c hc
      · subst hc; exact digitChar_ne_dollar (Nat.mod_lt _ (by omega))

/-- The scanner ignores a marker-free segment. -/
theorem phScanSt_skip (s t : List Char) (h : ∀ c ∈ s, c ≠ '$') :
    phScanSt (s ++ t) none = phScanSt t none := by
  induction s with
  | nil => rfl
  | cons c cs ih =>
    have hc : c ≠ '$' := h c (List.mem_cons_self _ _)
    simp only [List.cons_append, phScanSt, if_neg hc]
    exact ih (fun x hx => h x (List.mem_cons_of_mem _ hx))

/-- Scanning the decimal digits of `n` extends the accumulator by `n`:
the placeholder scanner parses back exactly the number the printer wrote. -/
theorem phScanSt_dec (fuel : Nat) : ∀ n, n < fuel → ∀ (a : Nat) (rest : List Char),
    phScanSt (decCharsAux fuel n ++ rest) (some a) =
      phScanSt rest (some (a * 10 ^ (decCharsAux fuel n).length + n)) := by
  induction fuel with
  | zero => intro n h; omega
  | succ f ih =>
    intro n hn a rest
    by_cases h : n < 10
    · simp only [decCharsAux, if_pos h, List.singleton_append, List.length_singleton]
      rw [phScanSt]
      rw [if_pos (digitChar_isDigit h), digitChar_toNatSub h]
      have : 10 * a + n = a * 10 ^ 1 + n := by ring
      rw [this]
    · simp only [decCharsAux, if_neg h, List.append_assoc, List.singleton_append]
      rw [ih (n / 10) (by omega) a (Nat.digitChar (n % 10) :: rest)]
      rw [phScanSt]
      rw [if_pos (digitChar_isDigit (Nat.mod_lt _ (by omega))),
          digitChar_toNatSub (Nat.mod_lt _ (by omega))]
      have hlen : (decCharsAux f (n / 10) ++ [Nat.digitChar (n % 10)]).length =
          (decCharsAux f (n / 10)).length + 1 := by simp
      rw [hlen]
      congr 1
      congr 1
      have hdm : 10 * (n / 10) + n % 10 = n := Nat.div_add_mod n 10
      have hp : a * 10 ^ ((decCharsAux f (n / 10)).length + 1) =
          (a * 10 ^ (decCharsAux f (n / 10)).length) * 10 := by ring
      generalize (a * 10 ^ (decCharsAux f (n / 10)).length) = p at *
      omega

/-- The characters of a printed number are its digit characters. -/
theorem decStr_data (n : Nat) : (decStr n).data = decChars n := rfl

/-- Scanning a quoted-column fragment `"col"=$i` (column `$`-free) yields the
placeholder index `i` and continues after its digits. -/
theorem phScanSt_quoted (cd : List Char) (hc : ∀ x ∈ cd, x ≠ '$') (i : Nat)
    (rest : List Char) :
    phScanSt ('"' :: (cd ++ ('"' :: '=' :: '$' :: (decChars i ++ rest)))) none =
      phScanSt rest (some i) := by
  simp only [phScanSt]
  rw [if_neg (by decide)]
  rw [phScanSt_skip cd _ hc]
  simp only [phScanSt]
  rw [if_neg (by decide), if_neg (by decide), if_pos trivial]
  rw [decChars, phScanSt_dec (i + 1) i (by omega) 0 rest]
  simp

/-- The `", "` separator flushes the pending placeholder index. -/
theorem phScanSt_commasp (i : Nat) (t : List Char) :
    phScanSt (',' :: ' ' :: t) (some i) = i :: phScanSt t none := by
  simp only [phScanSt]
  rw [if_neg (by decide), if_neg (by decide), if_neg (by decide)]

/-- The placeholder indices of the joined `SET` fragments for fields enumerated
from position `s` are exactly the contiguous sequence `s+1, s+2, ...`. -/
theorem phScan_joined_cols (m : List (String × String)) :
    ∀ (ks : List String) (s : Nat),
    (∀ k ∈ ks, noDollar (resolveCol m k)) →
    phScanSt (joinSep ", " ((List.enumFrom s ks).map
      (fun p => "\"" ++ resolveCol m p.2 ++ "\"=$" ++ decStr (p.1 + 1)))).data none =
      seqFrom (s + 1) ks.length := by
  intro ks
  induction ks with
  | nil => intro s h; rfl
  | cons k tl ih =>
    intro s h
    have hk : noDollar (resolveCol m k) := h k (List.mem_cons_self _ _)
    cases tl with
    | nil =>
      simp only [List.enumFrom, List.map, joinSep, List.length_cons, List.length_nil]
      simp only [str_data_append, decStr_data, List.cons_append, List.nil_append,
        List.append_assoc]
      rw [show decChars (s + 1) = decChars (s + 1) ++ [] by simp]
      rw [phScanSt_quoted _ hk (s + 1) []]
      rfl
    | cons k2 tl2 =>
      simp only [List.enumFrom, List.map, joinSep, List.length_cons]
      simp only [str_data_append, decStr_data, List.cons_append, List.nil_append,
        List.append_assoc]
      rw [phScanSt_quoted _ hk (s + 1) _]
      rw [phScanSt_commasp]
      have hJ := ih (s + 1) (fun x hx => h x (List.mem_cons_of_mem _ hx))
      simp only [List.enumFrom, List.map, List.length_cons] at hJ
      rw [hJ]
      rfl

/-- A successful association-list lookup is a membership. -/
theorem lookup_mem {k c : String} : ∀ {m : List (String × String)},
    List.lookup k m = some c → (k, c) ∈ m := by
  intro m
  induction m with
  | nil => intro h; simp [List.lookup] at h
  | cons p tl ih =>
    intro h
    rw [List.lookup] at h
    by_cases hk : k = p.1
    · rw [show (k == p.1) = true from by simp [hk]] at h
      injection h with h2
      subst h2
      subst hk
      simp
    · rw [show (k == p.1) = false from by simp [hk]] at h
      exact List.mem_cons_of_mem _ (ih h)

/-- Column resolution preserves `$`-freeness. -/
theorem resolveCol_noDollar {m : List (String × String)} {k : String}
    (hk : noDollar k) (hm : ∀ p ∈ m, noDollar p.2) : noDollar (resolveCol m k) := by
  unfold resolveCol
  cases hl : List.lookup k m with
  | none => exact hk
  | some c =>
    by_cases hc : c = ""
    · simp only [if_pos hc]; exact hk
    · simp only [if_neg hc]
      exact hm (k, c) (lookup_mem hl)

/-- C5: for every non-empty update request, the compiled `SET` clause contains
exactly one placeholder per entry of the request, numbered `1..N` in the order
the fields were supplied (`phScan setCols = [1, ..., N]`, contiguous, no gaps,
no reordering), and the returned value list is positionally aligned 1:1 with
those placeholders (`Object.values` in supplied order).  The `$`-freeness
hypotheses say the field names and mapped column names are ordinary
identifiers, so the scanned placeholders are exactly the generated ones. -/
theorem C5_update_placeholders (data : List (String × JSVal)) (m : List (String × String))
    (hne : data ≠ [])
    (hkeys : ∀ p ∈ data, noDollar p.1)
    (hmap : ∀ p ∈ m, noDollar p.2) :
    ∃ setCols,
      sqlForPartialUpdate data m = Except.ok (setCols, data.map Prod.snd) ∧
      phScan setCols = seqFrom 1 data.length := by
  have hk : data.map Prod.fst ≠ [] := by
    simpa using hne
  refine ⟨joinSep ", " ((data.map Prod.fst).enum.map
    (fun p => "\"" ++ resolveCol m p.2 ++ "\"=$" ++ decStr (p.1 + 1))), ?_, ?_⟩
  · simp only [sqlForPartialUpdate]
    rw [if_neg hk]
  · have hres : ∀ k ∈ data.map Prod.fst, noDollar (resolveCol m k) := by
      intro k hkm
      rcases List.mem_map.mp hkm with ⟨p, hp, rfl⟩
      exact resolveCol_noDollar (hkeys p hp) hmap
    have h := phScan_joined_cols m (data.map Prod.fst) 0 hres
    simpa [phScan, List.enum, List.length_map] using h

/-- Witness for `C5_update_placeholders` at the concrete update
`{title: "X", salary: null}` with map `{salary: "salary"}`. -/
theorem C5_update_placeholders_witness :
    (([("title", JSVal.str "X"), ("salary", JSVal.null)] : List (String × JSVal)) ≠ []) ∧
    ∃ setCols,
      sqlForPartialUpdate [("title", JSVal.str "X"), ("salary", JSVal.null)]
        [("salary", "salary")] = Except.ok (setCols, [JSVal.str "X", JSVal.null]) ∧
      phScan setCols = seqFrom 1 2 :=
  ⟨by decide, by
    have h := C5_update_placeholders
      [("title", JSVal.str "X"), ("salary", JSVal.null)] [("salary", "salary")]
      (by decide) (by decide) (by decide)
    simpa using h⟩

/-- A filter object containing an unrecognized key never survives the
`GET /jobs` validation loop: the loop stops at some request key with either the
unrecognized-parameter message or the missing-value message naming it. -/
theorem checkJobFilters_offending : ∀ (query : List (String × JSVal)),
    (∃ p ∈ query, p.1 ∉ supportedFilters) →
    ∃ k, (∃ p ∈ query, p.1 = k) ∧
      ((k ∉ supportedFilters ∧ checkJobFilters query = Except.error (JoblyError.badRequest
          ("Cannot filter results by parameter " ++ quo ++ k ++ quo)))
       ∨ ((k = "titleLike" ∨ k = "minSalary") ∧ checkJobFilters query = Except.error
          (JoblyError.badRequest ("Missing value for parameter " ++ quo ++ k ++ quo)))) := by
  intro query
  induction query with
  | nil => intro h; simp at h
  | cons kv rest ih =>
    obtain ⟨k0, v0⟩ := kv
    intro h
    by_cases h1 : k0 ∉ supportedFilters
    · refine ⟨k0, ⟨(k0, v0), List.mem_cons_self _ _, rfl⟩, Or.inl ⟨h1, ?_⟩⟩
      rw [checkJobFilters, if_pos h1]
    · push_neg at h1
      by_cases h2 : (k0 = "titleLike" ∨ k0 = "minSalary") ∧ v0 = JSVal.str ""
      · refine ⟨k0, ⟨(k0, v0), List.mem_cons_self _ _, rfl⟩, Or.inr ⟨h2.1, ?_⟩⟩
        rw [checkJobFilters, if_neg (by simpa using h1), if_pos h2]
      · have hrest : ∃ p ∈ rest, p.1 ∉ supportedFilters := by
          rcases h with ⟨p, hp, hnp⟩
          rcases List.mem_cons.mp hp with rfl | hp2
          · exact absurd h1 hnp
          · exact ⟨p, hp2, hnp⟩
        obtain ⟨k, hkmem, hres⟩ := ih hrest
        refine ⟨k, ?_, ?_⟩
        · rcases hkmem with ⟨p, hp, hpk⟩
          exact ⟨p, List.mem_cons_of_mem _ hp, hpk⟩
        · rw [checkJobFilters, if_neg (by simpa using h1), if_neg h2]
          exact hres

/-- C3 (amended): for every filter request containing a parameter name not in
the jobs route's recognized set, the filtered-read operation fails with a
`BadRequestError` before any clause is compiled and before the store is
consulted (the outcome is identical for any two stores), naming a key of the
request: the invalid-filter-parameter message naming the unrecognized key,
unless an earlier-iterated recognized value-bearing key carries the empty
string, in which case the missing-value message naming that key. -/
theorem C3_unknown_filter_param {α : Type} (dbq dbq2 : String → List JSVal → List α)
    (query : List (String × JSVal)) (h : ∃ p ∈ query, p.1 ∉ supportedFilters) :
    (∃ k, (∃ p ∈ query, p.1 = k) ∧
      ((k ∉ supportedFilters ∧ getJobsHandler dbq query = Except.error (JoblyError.badRequest
          ("Cannot filter results by parameter " ++ quo ++ k ++ quo)))
       ∨ ((k = "titleLike" ∨ k = "minSalary") ∧ getJobsHandler dbq query = Except.error
          (JoblyError.badRequest ("Missing value for parameter " ++ quo ++ k ++ quo))))) ∧
    getJobsHandler dbq query = getJobsHandler dbq2 query := by
  have hne : query.length ≠ 0 := by
    rcases h with ⟨p, hp, _⟩
    intro h0
    rw [List.length_eq_zero] at h0
    subst h0
    simp at hp
  have hget : ∀ (d : String → List JSVal → List α) (e : JoblyError),
      checkJobFilters query = Except.error e →
      getJobsHandler d query = Except.error e := by
    intro d e he
    unfold getJobsHandler
    rw [if_neg hne, he]
  obtain ⟨k, hkmem, hres⟩ := checkJobFilters_offending query h
  have herr : ∃ e, checkJobFilters query = Except.error e := by
    rcases hres with ⟨_, he⟩ | ⟨_, he⟩ <;> exact ⟨_, he⟩
  obtain ⟨e, he⟩ := herr
  refine ⟨⟨k, hkmem, ?_⟩, by rw [hget dbq e he, hget dbq2 e he]⟩
  rcases hres with ⟨hk1, he1⟩ | ⟨hk1, he1⟩
  · exact Or.inl ⟨hk1, hget dbq _ he1⟩
  · exact Or.inr ⟨hk1, hget dbq _ he1⟩

/-- Witness for `C3_unknown_filter_param` at the concrete query
`{bogus: "x"}` and two different stores. -/
theorem C3_witness :
    (∃ p ∈ ([("bogus", JSVal.str "x")] : List (String × JSVal)), p.1 ∉ supportedFilters) ∧
    ((∃ k, (∃ p ∈ ([("bogus", JSVal.str "x")] : List (String × JSVal)), p.1 = k) ∧
      ((k ∉ supportedFilters ∧ getJobsHandler (fun _ _ => ([] : List Unit))
          [("bogus", JSVal.str "x")] = Except.error (JoblyError.badRequest
          ("Cannot filter results by parameter " ++ quo ++ k ++ quo)))
       ∨ ((k = "titleLike" ∨ k = "minSalary") ∧ getJobsHandler (fun _ _ => ([] : List Unit))
          [("bogus", JSVal.str "x")] = Except.error
          (JoblyError.badRequest ("Missing value for parameter " ++ quo ++ k ++ quo))))) ∧
    getJobsHandler (fun _ _ => ([] : List Unit)) [("bogus", JSVal.str "x")] =
      getJobsHandler (fun _ _ => [()]) [("bogus", JSVal.str "x")]) :=
  ⟨by decide, C3_unknown_filter_param _ _ _ (by decide)⟩

/-- C3 counterexample: the request `{titleLike: "", bogus: "x"}` contains the
unrecognized key `bogus`, yet the operation fails with the missing-value error
naming `titleLike` — not with an invalid-filter-parameter error naming
`bogus`, as the claim as stated requires. -/
theorem C3_counterexample :
    getJobsHandler (fun _ _ => ([] : List Unit))
      [("titleLike", JSVal.str ""), ("bogus", JSVal.str "x")] =
      Except.error (JoblyError.badRequest
        ("Missing value for parameter " ++ quo ++ "titleLike" ++ quo)) ∧
    JoblyError.badRequest ("Missing value for parameter " ++ quo ++ "titleLike" ++ quo) ≠
      JoblyError.badRequest ("Cannot filter results by parameter " ++ quo ++ "bogus" ++ quo) := by
  exact ⟨by decide, by decide⟩

/-- C1: evaluation at the failing input.  For the filter object
`{hasEquity: "", minSalary: "300"}` (presence-kind key iterated first) the job
filter compiler emits `WHERE equity > 0 AND salary >= $2` with bound value
list `["300"]`: the single placeholder is numbered 2, not 1 — the indices are
not assigned contiguously from 1 in emission order and are not aligned with
the one-element value list, violating the claimed invariant. -/
theorem C1_presence_first_misnumbers :
    jobBuildWhere [("hasEquity", JSVal.str ""), ("minSalary", JSVal.str "300")] =
      ("WHERE equity > 0 AND salary >= $2", [JSVal.str "300"]) ∧
    phScan (jobBuildWhere [("hasEquity", JSVal.str ""), ("minSalary", JSVal.str "300")]).1 =
      [2] ∧
    phScan (jobBuildWhere [("hasEquity", JSVal.str ""), ("minSalary", JSVal.str "300")]).1 ≠
      seqFrom 1 (jobBuildWhere
        [("hasEquity", JSVal.str ""), ("minSalary", JSVal.str "300")]).2.length := by
  exact ⟨by decide, by decide, by decide⟩

/-- C2 counterexample: compiling the claim's input
`{titleLike: "j", minSalary: "300"}` with the job filter compiler does not
produce the claimed value list `["%j%", 300]` — the second bound value is the
raw string, not a number. -/
theorem C2_counterexample :
    (jobBuildWhere [("titleLike", JSVal.str "j"), ("minSalary", JSVal.str "300")]).2 ≠
      [JSVal.str "%j%", JSVal.num 300] := by decide

/-- C2 (amended): the Company filter compiler coerces `GTE`/`LTE` values to
numeric with unary plus before binding, while the Job filter compiler binds
`minSalary`'s raw value unchanged: `{titleLike: "j", minSalary: "300"}`
compiles to exactly two AND-joined predicates with value list
`["%j%", "300"]` — the second value remains the supplied string. -/
theorem C2_coercion_split :
    companyBuildFilters [("nameLike", JSVal.str "j"), ("minEmployees", JSVal.str "300")] =
      (["WHERE name ILIKE $1", "num_employees >= $2"], [JSVal.str "%j%", JSVal.num 300], 3) ∧
    jobBuildWhere [("titleLike", JSVal.str "j"), ("minSalary", JSVal.str "300")] =
      ("WHERE title ILIKE $1 AND salary >= $2", [JSVal.str "%j%", JSVal.str "300"]) := by
  exact ⟨by decide, by decide⟩

/-- C4: evaluation at the failing input.  With `{hasEquity: "", titleLike: "j"}`
the fixed predicate `equity > 0` is emitted exactly once, carries no
placeholder, and binds no value — but it does consume a placeholder index:
because `Job.findAll` numbers placeholders by `filters.length + 1`, the
following predicate reads `title ILIKE $2` while only one value is bound, so
the scanned indices `[2]` differ from the required `[1]`. -/
theorem C4_presence_consumes_index :
    jobBuildFilters [("hasEquity", JSVal.str ""), ("titleLike", JSVal.str "j")] =
      (["equity > 0", "title ILIKE $2"], [JSVal.str "%j%"]) ∧
    (jobBuildFilters [("hasEquity", JSVal.str ""), ("titleLike", JSVal.str "j")]).1.count
      "equity > 0" = 1 ∧
    phScan "equity > 0" = [] ∧
    phScan (joinSep " AND "
      (jobBuildFilters [("hasEquity", JSVal.str ""), ("titleLike", JSVal.str "j")]).1) = [2] ∧
    phScan (joinSep " AND "
      (jobBuildFilters [("hasEquity", JSVal.str ""), ("titleLike", JSVal.str "j")]).1) ≠
      seqFrom 1 (jobBuildFilters
        [("hasEquity", JSVal.str ""), ("titleLike", JSVal.str "j")]).2.length := by
  refine ⟨by decide, by decide, by decide, by decide, by decide⟩

/-- C6: for every column map, the update compiler applied to an empty update
request fails with the `BadRequestError("No data")` invalid-input error; no
`SET` clause is produced. -/
theorem C6_empty_update_rejected (m : List (String × String)) :
    sqlForPartialUpdate [] m = Except.error (JoblyError.badRequest "No data") := rfl

/-- C7: compiling an update for `{title: "X", salary: null}` against a column
map with no override for `title` and `salary` mapped to `salary` yields the
clause `"title"=$1, "salary"=$2` (unmapped names fall back to themselves)
with value list `["X", null]` in that order — the explicit null is bound as a
value, not filtered out. -/
theorem C7_null_bound_not_filtered :
    sqlForPartialUpdate [("title", JSVal.str "X"), ("salary", JSVal.null)]
      [("salary", "salary")] =
      Except.ok ("\"title\"=$1, \"salary\"=$2", [JSVal.str "X", JSVal.null]) := by decide

/-- C8: whenever the store returns zero rows, `Job.findAll` (any filter object,
including the unfiltered empty one) and `Company.findAll` (any filter
argument, including the unfiltered `undefined`) both fail with a
`NotFoundError` instead of returning an empty list — the empty-result-errors
behavior is uniform across the two repositories. -/
theorem C8_zero_rows_error {α β : Type} (dbqJ : String → List JSVal → List α)
    (dbqC : String → List JSVal → List β) (fbJ : List (String × JSVal))
    (fbC : Option (List (String × JSVal)))
    (hJ : ∀ q v, dbqJ q v = []) (hC : ∀ q v, dbqC q v = []) :
    jobFindAll dbqJ fbJ =
      Except.error (JoblyError.notFound "No jobs match the parameters") ∧
    (∃ msg, companyFindAll dbqC fbC = Except.error (JoblyError.notFound msg)) := by
  refine ⟨?_, ?_⟩
  · simp [jobFindAll, hJ]
  · cases fbC with
    | none => exact ⟨"No companies exist in database", by simp [companyFindAll, hC]⟩
    | some fb => exact ⟨"No companies match the parameters", by simp [companyFindAll, hC]⟩

/-- Witness for `C8_zero_rows_error` at the claim's concrete filters
`{titleLike: "99"}` / `{nameLike: "99"}` over an empty store. -/
theorem C8_zero_rows_error_witness :
    (∀ (q : String) (v : List JSVal), (fun (_ : String) (_ : List JSVal) => ([] : List Unit)) q v = []) ∧
    (jobFindAll (fun _ _ => ([] : List Unit)) [("titleLike", JSVal.str "99")] =
      Except.error (JoblyError.notFound "No jobs match the parameters") ∧
    (∃ msg, companyFindAll (fun _ _ => ([] : List Unit)) (some [("nameLike", JSVal.str "99")]) =
      Except.error (JoblyError.notFound msg))) :=
  ⟨fun _ _ => rfl,
   C8_zero_rows_error (fun _ _ => []) (fun _ _ => []) [("titleLike", JSVal.str "99")]
     (some [("nameLike", JSVal.str "99")]) (fun _ _ => rfl) (fun _ _ => rfl)⟩

/-- C9 counterexample: a present credential without the admin role claim on
`POST /jobs` fails with the `Unauthorized` kind (status 401, as the route
tests expect) — exactly the kind an anonymous caller receives, and not the
distinct `Forbidden` kind the claim requires. -/
theorem C9_counterexample :
    postJobsPipeline (Caller.user "u2" false)
      ⟨JSVal.str "j5", JSVal.num 500, JSVal.num 0, "c1"⟩ ⟨[], []⟩ =
      Except.error JoblyError.unauthorized ∧
    postJobsPipeline Caller.anon
      ⟨JSVal.str "j5", JSVal.num 500, JSVal.num 0, "c1"⟩ ⟨[], []⟩ =
      Except.error JoblyError.unauthorized ∧
    JoblyError.unauthorized ≠ JoblyError.forbidden := by
  exact ⟨rfl, rfl, by decide⟩

/-- C9 (amended): for every caller whose credential is present but does not
carry the admin role claim, an admin-gated job operation fails with
`Unauthorized` — the same failure kind as for an anonymous caller, not a
distinct `Forbidden` — and the gate short-circuits before the repository
call: the outcome is identical for any two stores. -/
theorem C9_non_admin_unauthorized (name : String) (body : JobData) (store store2 : Store) :
    postJobsPipeline (Caller.user name false) body store =
      Except.error JoblyError.unauthorized ∧
    postJobsPipeline Caller.anon body store = Except.error JoblyError.unauthorized ∧
    postJobsPipeline (Caller.user name false) body store =
      postJobsPipeline (Caller.user name false) body store2 := by
  exact ⟨rfl, rfl, rfl⟩

/-- C10: for every `Company.create` call whose supplied handle already belongs
to an existing company, the operation fails with the duplicate-company error
naming the handle; the error is raised by the pre-insert duplicate check, so
no insert is issued and no updated table is produced. -/
theorem C10_duplicate_handle_rejected (data : CompanyData) (companies : List CompanyData)
    (h : ∃ c ∈ companies, c.handle = data.handle) :
    companyCreate data companies =
      Except.error (JoblyError.badRequest ("Duplicate company: " ++ data.handle)) := by
  obtain ⟨c, hc, he⟩ := h
  have hmem : c ∈ companies.filter (fun c => c.handle = data.handle) :=
    List.mem_filter.mpr ⟨hc, by simp [he]⟩
  unfold companyCreate
  cases hf : companies.filter (fun c => c.handle = data.handle) with
  | nil => rw [hf] at hmem; simp at hmem
  | cons a tl => rfl

/-- Witness for `C10_duplicate_handle_rejected`: creating a second company
with handle `c1` against a table already holding `c1`. -/
theorem C10_duplicate_handle_rejected_witness :
    (∃ c ∈ [(⟨"c1", JSVal.null, JSVal.null, JSVal.null, JSVal.null⟩ : CompanyData)],
      c.handle = ("c1" : String)) ∧
    companyCreate ⟨"c1", JSVal.str "C1 two", JSVal.null, JSVal.null, JSVal.null⟩
      [⟨"c1", JSVal.null, JSVal.null, JSVal.null, JSVal.null⟩] =
      Except.error (JoblyError.badRequest ("Duplicate company: " ++ "c1")) :=
  ⟨by decide, C10_duplicate_handle_rejected
    ⟨"c1", JSVal.str "C1 two", JSVal.null, JSVal.null, JSVal.null⟩
    [⟨"c1", JSVal.null, JSVal.null, JSVal.null, JSVal.null⟩] (by decide)⟩
